import Mathlib

/-!
Verification of the view-selection and seam-leveling driver of
`examples/task7/class7_texrecon.cpp` (the `main` function of the texturing
pipeline) against its natural-language specification.

The driver is embedded shallowly: its control flow becomes the executable
function `runPipeline`, which consumes the configuration, the mesh face list,
the number of texture views, the contents of the optional labeling and
data-cost files, and oracle results for the external library stages, and
produces the trace of pipeline stage events, the process outcome, the final
face-adjacency graph, and the texture patches as they stand after the
global-seam-leveling stage.  Library calls whose bodies are not part of the
driver (graph construction, `view_selection`, `adjust_colors`, patch
generation, global/local leveling) are modelled from the specification, as
documented on each definition.
-/

namespace Texrecon

/-- Color triple used for patch pixels and adjustment values.  The C++ code
uses `math::Vec3f`; colors are modelled with exact rationals. -/
abbrev Vec3 := ℚ × ℚ × ℚ

/-- The zero color / zero adjustment, `math::Vec3f(0.0f)`. -/
def vec3zero : Vec3 := (0, 0, 0)

/-- Componentwise addition of color triples. -/
def vec3add (a b : Vec3) : Vec3 := (a.1 + b.1, a.2.1 + b.2.1, a.2.2 + b.2.2)

/-- Scalar multiplication of a color triple. -/
def vec3smul (q : ℚ) (a : Vec3) : Vec3 := (q * a.1, q * a.2.1, q * a.2.2)

/-- The settings consumed by the driver: the enable flags for global and
local seam leveling (`conf.settings.global_seam_leveling`,
`conf.settings.local_seam_leveling`). -/
structure Settings where
  global_seam_leveling : Bool
  local_seam_leveling : Bool
  deriving DecidableEq

/-- The parsed command-line arguments that steer the driver's control flow
(`Arguments conf` in `main`).  An empty string models an absent file path. -/
structure Arguments where
  labeling_file : String
  data_cost_file : String
  write_intermediate_results : Bool
  settings : Settings
  deriving DecidableEq

/-- Modelled from the spec: the reserved invalid / unlabeled value of a graph
node label ("each node holds a mutable label (selected view index, or
'unlabeled')"); freshly constructed graph nodes carry it. -/
def invalidLabel : Nat := 0

/-- Modelled from the spec: `tex::Graph`, "an explicit node array indexed by
face id" where each node holds a mutable label.  The adjacency lists play no
role in the driver-level claims and are omitted from the model; the node
count and the labels are what the driver reads and writes. -/
structure Graph where
  labels : List Nat
  deriving DecidableEq

/-- Modelled from the spec: the graph constructor `tex::Graph graph(num_faces)`
creates one (unlabeled) node per face. -/
def Graph.init (n : Nat) : Graph := ⟨List.replicate n invalidLabel⟩

/-- The node count, `graph.num_nodes()`. -/
def Graph.num_nodes (g : Graph) : Nat := g.labels.length

/-- Label write, `graph.set_label(i, label)`. -/
def Graph.set_label (g : Graph) (i label : Nat) : Graph := ⟨g.labels.set i label⟩

/-- Label read, `graph.get_label(i)`. -/
def Graph.get_label (g : Graph) (i : Nat) : Nat := g.labels.getD i invalidLabel

/-- Modelled from the spec: one pixel of a texture patch image — the local
index (within the patch) of the face it projects from, barycentric weights
with respect to that face's three vertices, its current color, and whether a
projected face actually covers it (the ingredient of the validity mask). -/
structure Pixel where
  face : Nat
  w0 : ℚ
  w1 : ℚ
  w2 : ℚ
  color : Vec3
  covered : Bool
  deriving DecidableEq

/-- Modelled from the spec: `tex::TexturePatch` — a connected group of
same-label faces, the rasterized sub-image covering their footprint, and a
validity mask (absent until `adjust_colors` computes it). -/
structure TexturePatch where
  faces : List Nat
  pixels : List Pixel
  validity_mask : Option (List Bool)
  deriving DecidableEq

/-- The patch's face list, `texture_patch->get_faces()`. -/
def TexturePatch.get_faces (p : TexturePatch) : List Nat := p.faces

/-- Reading an adjustment entry; out-of-range reads yield the zero
adjustment. -/
def adjGet (adj : List Vec3) (i : Nat) : Vec3 := adj.getD i vec3zero

/-- Modelled from the spec: `TexturePatch::adjust_colors` adds the
per-face-vertex color-adjustment values to the patch pixels via smooth
(barycentric) interpolation across each face and computes the patch's
validity mask (pixels legitimately covered by a projected face are valid). -/
def TexturePatch.adjust_colors (p : TexturePatch) (adj : List Vec3) : TexturePatch :=
  { faces := p.faces
    pixels := p.pixels.map fun px =>
      let delta :=
        vec3add (vec3smul px.w0 (adjGet adj (3 * px.face)))
          (vec3add (vec3smul px.w1 (adjGet adj (3 * px.face + 1)))
            (vec3smul px.w2 (adjGet adj (3 * px.face + 2))))
      { px with color := vec3add px.color delta }
    validity_mask := some (p.pixels.map Pixel.covered) }

/-- The all-zero per-face adjustment vector the driver builds when global
seam leveling is disabled:
`std::vector<math::Vec3f> patch_adjust_values(texture_patch->get_faces().size() * 3, math::Vec3f(0.0f))`. -/
def zeroAdjust (p : TexturePatch) : List Vec3 :=
  List.replicate (p.get_faces.length * 3) vec3zero

/-- The observable pipeline stage events of the driver, in the order `main`
performs them.  Stages that are pure I/O (writing intermediate results,
timing, logging) are out of the spec's scope and are not recorded. -/
inductive Event where
  | buildAdjacencyGraph (numNodes : Nat)
  | calculateDataCosts
  | loadDataCosts
  | viewSelection
  | loadLabeling
  | generatePatches
  | globalSeamLeveling
  | adjustColors (patch : Nat) (adj : List Vec3)
  | localSeamLeveling
  | generateAtlases
  | buildModel
  | saveModel
  deriving DecidableEq

/-- Process outcome: normal completion, or `std::exit(EXIT_FAILURE)`. -/
inductive Outcome where
  | success
  | exitFailure
  deriving DecidableEq

/-- Modelled from the spec: `tex::view_selection` solves the MRF labeling and
writes a label into every graph node in place.  The solver itself is outside
the driver; its resulting labeling is an oracle input `mrf`, and the stage
writes `mrf` into the graph node by node. -/
def view_selection (g : Graph) (mrf : List Nat) : Graph :=
  ⟨(List.range g.labels.length).map fun i => mrf.getD i invalidLabel⟩

/-- The label-transfer loop of `main` (lines 145–152): for each index `i` in
file order, if `label > texture_views.size()` the process exits with failure
(labels already written stay written); otherwise `graph.set_label(i, label)`
and the loop continues.  Returns the graph as of loop end together with
`true` for normal completion, `false` for the fatal exit. -/
def transferLabeling (numViews : Nat) : Graph → Nat → List Nat → Graph × Bool
  | g, _, [] => (g, true)
  | g, i, label :: rest =>
    if numViews < label then (g, false)
    else transferLabeling numViews (g.set_label i label) (i + 1) rest

/-- Result of the view-selection phase of the driver: the stage events it
emitted, the graph it produced, and whether the pipeline may proceed
(`false` models `std::exit(EXIT_FAILURE)` inside the phase). -/
structure StageResult where
  events : List Event
  graph : Graph
  ok : Bool

/-- External inputs of one driver run: the configuration, the mesh's flat
face-index list (`mesh->get_faces()`), the number of texture views
(`texture_views.size()`), the labeling-file contents (consulted only when
`conf.labeling_file` is non-empty), whether loading the persisted data-cost
file succeeds, the labeling the MRF solver would produce (oracle), the
patches `generate_texture_patches` produces (oracle), and the patches
`global_seam_leveling` would produce (oracle). -/
structure PipelineInput where
  conf : Arguments
  meshFaces : List Nat
  numViews : Nat
  labelingFileContents : List Nat
  dataCostLoadOk : Bool
  mrfLabeling : List Nat
  patches : List TexturePatch
  globalLeveledPatches : List TexturePatch

/-- The view-selection phase (lines 89–155 of `main`): with no labeling file,
compute or load the data costs and run the MRF optimization; with a labeling
file, load it, check its length against `num_nodes()`, and transfer it into
the graph with the per-label range check. -/
def viewSelectionStage (inp : PipelineInput) (g : Graph) : StageResult :=
  if inp.conf.labeling_file = "" then
    if inp.conf.data_cost_file = "" then
      ⟨[Event.calculateDataCosts, Event.viewSelection],
        view_selection g inp.mrfLabeling, true⟩
    else if inp.dataCostLoadOk then
      ⟨[Event.loadDataCosts, Event.viewSelection],
        view_selection g inp.mrfLabeling, true⟩
    else
      ⟨[Event.loadDataCosts], g, false⟩
  else
    if inp.labelingFileContents.length ≠ g.num_nodes then
      ⟨[Event.loadLabeling], g, false⟩
    else
      let r := transferLabeling inp.numViews g 0 inp.labelingFileContents
      ⟨[Event.loadLabeling], r.1, r.2⟩

/-- The `adjustColors` events of the disabled-global-leveling branch, one per
patch in index order, each carrying the all-zero adjustment vector the driver
constructs. -/
def adjustEventsAux : Nat → List TexturePatch → List Event
  | _, [] => []
  | i, p :: ps => Event.adjustColors i (zeroAdjust p) :: adjustEventsAux (i + 1) ps

/-- Adjustment events for a patch list, starting at patch index 0. -/
def adjustEvents (patches : List TexturePatch) : List Event :=
  adjustEventsAux 0 patches

/-- The global-seam-leveling stage (lines 174–194 of `main`): when the flag
is set, run `tex::global_seam_leveling` (its result is the oracle input);
otherwise run `adjust_colors` on every patch with the all-zero adjustment
vector of size `faces * 3`, which computes the validity masks. -/
def globalStage (s : Settings) (patches glPatches : List TexturePatch) :
    List Event × List TexturePatch :=
  if s.global_seam_leveling then
    ([Event.globalSeamLeveling], glPatches)
  else
    (adjustEvents patches, patches.map fun p => p.adjust_colors (zeroAdjust p))

/-- The local-seam-leveling stage (lines 196–201 of `main`): gated only by
`conf.settings.local_seam_leveling`. -/
def localStage (s : Settings) : List Event :=
  if s.local_seam_leveling then [Event.localSeamLeveling] else []

/-- Result of one driver run: the stage-event trace, the process outcome, the
final graph, and the patches as they stand right after the
global-seam-leveling stage (empty when the run aborts before patch
generation). -/
structure PipelineResult where
  trace : List Event
  outcome : Outcome
  graph : Graph
  patchesAfterGlobal : List TexturePatch

/-- The driver pipeline of `main` (lines 78–225): build the adjacency graph
with `mesh->get_faces().size() / 3` nodes, run the view-selection phase, and
— unless that phase exited — generate patches, run the global stage, the
local stage, atlas generation, and model building/saving. -/
def runPipeline (inp : PipelineInput) : PipelineResult :=
  let numFaces := inp.meshFaces.length / 3
  let g0 := Graph.init numFaces
  let pre : List Event := [Event.buildAdjacencyGraph numFaces]
  let vs := viewSelectionStage inp g0
  if vs.ok then
    let gs := globalStage inp.conf.settings inp.patches inp.globalLeveledPatches
    { trace := pre ++ vs.events ++ [Event.generatePatches] ++ gs.1
        ++ localStage inp.conf.settings
        ++ [Event.generateAtlases, Event.buildModel, Event.saveModel]
      outcome := Outcome.success
      graph := vs.graph
      patchesAfterGlobal := gs.2 }
  else
    { trace := pre ++ vs.events
      outcome := Outcome.exitFailure
      graph := vs.graph
      patchesAfterGlobal := [] }

/-- The stage number of an event in the spec's pipeline sequence: graph
construction (0) → data costs (1) → labeling (2) → patch generation (3) →
seam leveling (4) → atlas packing (5) → model building (6). -/
def stageOf : Event → Nat
  | Event.buildAdjacencyGraph _ => 0
  | Event.calculateDataCosts => 1
  | Event.loadDataCosts => 1
  | Event.viewSelection => 2
  | Event.loadLabeling => 2
  | Event.generatePatches => 3
  | Event.globalSeamLeveling => 4
  | Event.adjustColors _ _ => 4
  | Event.localSeamLeveling => 4
  | Event.generateAtlases => 5
  | Event.buildModel => 6
  | Event.saveModel => 6

/-- An event of the global-seam-leveling stage: either the global leveling
call itself or a validity-mask adjustment of the disabled branch. -/
def isGlobalStageEvent : Event → Prop
  | Event.globalSeamLeveling => True
  | Event.adjustColors _ _ => True
  | _ => False

/-- The set of labels the spec's §4.3 declares acceptable in an external
labeling: the invalid marker or a view index within `[0, numViews)`. -/
def specAcceptableLabel (numViews label : Nat) : Prop :=
  label = invalidLabel ∨ label < numViews

/-- Order of two events in the spec's stage sequence. -/
def stageLE (a b : Event) : Prop := stageOf a ≤ stageOf b

/-- A sample texture patch: one face, two pixels (one covered, one not). -/
def samplePatch : TexturePatch :=
  { faces := [7]
    pixels :=
      [ { face := 0, w0 := 1 / 2, w1 := 1 / 4, w2 := 1 / 4, color := (1, 2, 3), covered := true }
      , { face := 0, w0 := 1, w1 := 0, w2 := 0, color := (4, 5, 6), covered := false } ]
    validity_mask := none }

/-- Settings with both seam-leveling stages disabled. -/
def allOffSettings : Settings :=
  { global_seam_leveling := false, local_seam_leveling := false }

/-- A run supplied with an external labeling whose single label equals the
view count: `numViews = 2`, one face, file contents `[2]`. -/
def boundaryLabelInput : PipelineInput :=
  { conf := { labeling_file := "labeling.vec", data_cost_file := ""
              write_intermediate_results := false, settings := allOffSettings }
    meshFaces := [0, 1, 2]
    numViews := 2
    labelingFileContents := [2]
    dataCostLoadOk := true
    mrfLabeling := []
    patches := []
    globalLeveledPatches := [] }

/-- A run supplied with an external labeling of the wrong length: one face,
two labels in the file. -/
def wrongLengthInput : PipelineInput :=
  { conf := { labeling_file := "labeling.vec", data_cost_file := ""
              write_intermediate_results := false, settings := allOffSettings }
    meshFaces := [0, 1, 2]
    numViews := 2
    labelingFileContents := [0, 0]
    dataCostLoadOk := true
    mrfLabeling := []
    patches := []
    globalLeveledPatches := [] }

/-- A run supplied with an external labeling containing an out-of-range
label: `numViews = 2`, one face, file contents `[3]`. -/
def outOfRangeInput : PipelineInput :=
  { conf := { labeling_file := "labeling.vec", data_cost_file := ""
              write_intermediate_results := false, settings := allOffSettings }
    meshFaces := [0, 1, 2]
    numViews := 2
    labelingFileContents := [3]
    dataCostLoadOk := true
    mrfLabeling := []
    patches := []
    globalLeveledPatches := [] }

/-- A run supplied with a valid external labeling: `numViews = 2`, one face,
file contents `[1]`. -/
def validLabelingInput : PipelineInput :=
  { conf := { labeling_file := "labeling.vec", data_cost_file := ""
              write_intermediate_results := false, settings := allOffSettings }
    meshFaces := [0, 1, 2]
    numViews := 2
    labelingFileContents := [1]
    dataCostLoadOk := true
    mrfLabeling := []
    patches := []
    globalLeveledPatches := [] }

/-- A run that computes its own labeling, with global seam leveling disabled,
local seam leveling enabled, and one generated patch. -/
def computeLabelingInput : PipelineInput :=
  { conf := { labeling_file := "", data_cost_file := ""
              write_intermediate_results := false
              settings := { global_seam_leveling := false, local_seam_leveling := true } }
    meshFaces := [0, 1, 2]
    numViews := 2
    labelingFileContents := []
    dataCostLoadOk := true
    mrfLabeling := [1]
    patches := [samplePatch]
    globalLeveledPatches := [] }

/-- A run that tries to load a persisted data-cost file and fails. -/
def dataCostFailInput : PipelineInput :=
  { conf := { labeling_file := "", data_cost_file := "costs_data.spt"
              write_intermediate_results := false, settings := allOffSettings }
    meshFaces := [0, 1, 2]
    numViews := 2
    labelingFileContents := []
    dataCostLoadOk := false
    mrfLabeling := [1]
    patches := []
    globalLeveledPatches := [] }

/-- A run supplied with an external labeling of three labels whose first
out-of-range entry sits at index 2: `numViews = 2`, contents `[1, 0, 5]`. -/
def partialTransferInput : PipelineInput :=
  { conf := { labeling_file := "labeling.vec", data_cost_file := ""
              write_intermediate_results := false, settings := allOffSettings }
    meshFaces := [0, 1, 2, 3, 4, 5, 6, 7, 8]
    numViews := 2
    labelingFileContents := [1, 0, 5]
    dataCostLoadOk := true
    mrfLabeling := []
    patches := []
    globalLeveledPatches := [] }

section Lemmas

/-- Taking one element past an updated position splits off the new value. -/
lemma set_take_succ {α : Type} :
    ∀ (l : List α) (i : Nat) (x : α), i < l.length →
      (l.set i x).take (i + 1) = l.take i ++ [x]
  | _ :: _, 0, _, _ => by simp
  | a :: tl, i + 1, x, h => by
    have ih := set_take_succ tl i x (by simpa using Nat.lt_of_succ_lt_succ h)
    simp [List.set_cons_succ, List.take_succ_cons, ih]

/-- The label-transfer loop does not change the node count. -/
lemma transferLabeling_length (nv : Nat) :
    ∀ (ls : List Nat) (g : Graph) (i : Nat),
      ((transferLabeling nv g i ls).1).labels.length = g.labels.length
  | [], _, _ => rfl
  | l :: rest, g, i => by
    by_cases h : nv < l
    · simp [transferLabeling, h]
    · simpa [transferLabeling, h, Graph.set_label] using
        transferLabeling_length nv rest (g.set_label i l) (i + 1)

/-- The label-transfer loop completes normally exactly when every label in
the file is at most the number of views. -/
lemma transferLabeling_ok_iff (nv : Nat) :
    ∀ (ls : List Nat) (g : Graph) (i : Nat),
      (transferLabeling nv g i ls).2 = true ↔ ∀ l ∈ ls, l ≤ nv
  | [], _, _ => by simp [transferLabeling]
  | l :: rest, g, i => by
    by_cases h : nv < l
    · simp [transferLabeling, h]
    · simp [transferLabeling, h, transferLabeling_ok_iff nv rest (g.set_label i l) (i + 1)]
      exact fun _ => Nat.le_of_not_lt h

/-- When the label-transfer loop completes normally, it has written the file
contents verbatim over the tail of the graph's label array. -/
lemma transferLabeling_ok_labels (nv : Nat) :
    ∀ (ls : List Nat) (g : Graph) (i : Nat),
      g.labels.length = i + ls.length →
      (transferLabeling nv g i ls).2 = true →
      ((transferLabeling nv g i ls).1).labels = g.labels.take i ++ ls
  | [], g, i, hlen, _ => by
    have hle : g.labels.length ≤ i := by simp at hlen; omega
    simp [transferLabeling, List.take_of_length_le hle]
  | l :: rest, g, i, hlen, hok => by
    by_cases h : nv < l
    · simp [transferLabeling, h] at hok
    · have hi : i < g.labels.length := by simp at hlen; omega
      have hlen' : (g.set_label i l).labels.length = (i + 1) + rest.length := by
        simp [Graph.set_label]; simp at hlen; omega
      have hok' : (transferLabeling nv (g.set_label i l) (i + 1) rest).2 = true := by
        simpa [transferLabeling, h] using hok
      have ih := transferLabeling_ok_labels nv rest (g.set_label i l) (i + 1) hlen' hok'
      have hsplit : (g.set_label i l).labels.take (i + 1) = g.labels.take i ++ [l] :=
        set_take_succ g.labels i l hi
      simp [transferLabeling, h, ih, hsplit]

/-- When the label-transfer loop hits its first out-of-range label at index
`k`, it exits having written exactly the first `k` file labels; the rest of
the graph is untouched. -/
lemma transferLabeling_fail (nv : Nat) :
    ∀ (ls : List Nat) (g : Graph) (i k : Nat),
      g.labels.length = i + ls.length →
      k < ls.length →
      (∀ j, j < k → ls.getD j 0 ≤ nv) →
      nv < ls.getD k 0 →
      transferLabeling nv g i ls =
        (⟨(g.labels.take i ++ ls.take k) ++ g.labels.drop (i + k)⟩, false)
  | [], _, _, k, _, hk, _, _ => absurd hk (by simp)
  | l :: rest, g, i, 0, hlen, _, _, hbad => by
    have h : nv < l := by simpa using hbad
    simp [transferLabeling, h, List.take_append_drop]
  | l :: rest, g, i, k + 1, hlen, hk, hsafe, hbad => by
    have hl : l ≤ nv := by simpa using hsafe 0 (Nat.succ_pos k)
    have h : ¬ nv < l := Nat.not_lt_of_le hl
    have hi : i < g.labels.length := by simp at hlen; omega
    have hlen' : (g.set_label i l).labels.length = (i + 1) + rest.length := by
      simp [Graph.set_label]; simp at hlen; omega
    have ih := transferLabeling_fail nv rest (g.set_label i l) (i + 1) k hlen'
      (by simpa using hk)
      (fun j hj => by simpa using hsafe (j + 1) (Nat.succ_lt_succ hj))
      (by simpa using hbad)
    have hsplit : (g.set_label i l).labels.take (i + 1) = g.labels.take i ++ [l] :=
      set_take_succ g.labels i l hi
    have hdrop : (g.set_label i l).labels.drop (i + 1 + k) = g.labels.drop (i + 1 + k) := by
      simp [Graph.set_label, List.drop_set]
      omega
    have harith : i + (k + 1) = i + 1 + k := by omega
    simp [transferLabeling, h, ih, hsplit, hdrop, harith]

/-- Branch lemma: no labeling file and no data-cost file — compute data
costs, then run the MRF optimization. -/
lemma vss_compute (inp : PipelineInput) (g : Graph)
    (h1 : inp.conf.labeling_file = "") (h2 : inp.conf.data_cost_file = "") :
    viewSelectionStage inp g =
      ⟨[Event.calculateDataCosts, Event.viewSelection],
        view_selection g inp.mrfLabeling, true⟩ := by
  simp [viewSelectionStage, h1, h2]

/-- Branch lemma: no labeling file, data-cost file loads — load costs, then
run the MRF optimization. -/
lemma vss_load_ok (inp : PipelineInput) (g : Graph)
    (h1 : inp.conf.labeling_file = "") (h2 : inp.conf.data_cost_file ≠ "")
    (h3 : inp.dataCostLoadOk = true) :
    viewSelectionStage inp g =
      ⟨[Event.loadDataCosts, Event.viewSelection],
        view_selection g inp.mrfLabeling, true⟩ := by
  simp [viewSelectionStage, h1, h2, h3]

/-- Branch lemma: no labeling file, data-cost file fails to load — fatal. -/
lemma vss_load_fail (inp : PipelineInput) (g : Graph)
    (h1 : inp.conf.labeling_file = "") (h2 : inp.conf.data_cost_file ≠ "")
    (h3 : inp.dataCostLoadOk = false) :
    viewSelectionStage inp g = ⟨[Event.loadDataCosts], g, false⟩ := by
  simp [viewSelectionStage, h1, h2, h3]

/-- Branch lemma: labeling file with mismatched length — fatal before any
label is written. -/
lemma vss_file_mismatch (inp : PipelineInput) (g : Graph)
    (h1 : inp.conf.labeling_file ≠ "")
    (hlen : inp.labelingFileContents.length ≠ g.num_nodes) :
    viewSelectionStage inp g = ⟨[Event.loadLabeling], g, false⟩ := by
  simp [viewSelectionStage, h1, hlen]

/-- Branch lemma: labeling file with matching length — transfer it with the
per-label range check. -/
lemma vss_file_match (inp : PipelineInput) (g : Graph)
    (h1 : inp.conf.labeling_file ≠ "")
    (hlen : inp.labelingFileContents.length = g.num_nodes) :
    viewSelectionStage inp g =
      ⟨[Event.loadLabeling],
        (transferLabeling inp.numViews g 0 inp.labelingFileContents).1,
        (transferLabeling inp.numViews g 0 inp.labelingFileContents).2⟩ := by
  simp [viewSelectionStage, h1, hlen]

/-- The four possible event lists of the view-selection phase. -/
lemma vss_events_cases (inp : PipelineInput) (g : Graph) :
    (viewSelectionStage inp g).events = [Event.calculateDataCosts, Event.viewSelection]
    ∨ (viewSelectionStage inp g).events = [Event.loadDataCosts, Event.viewSelection]
    ∨ (viewSelectionStage inp g).events = [Event.loadDataCosts]
    ∨ (viewSelectionStage inp g).events = [Event.loadLabeling] := by
  unfold viewSelectionStage
  split_ifs <;> simp

/-- Unfolding of a run whose view-selection phase completes. -/
lemma runPipeline_ok (inp : PipelineInput)
    (h : (viewSelectionStage inp (Graph.init (inp.meshFaces.length / 3))).ok = true) :
    runPipeline inp =
      { trace := [Event.buildAdjacencyGraph (inp.meshFaces.length / 3)]
          ++ (viewSelectionStage inp (Graph.init (inp.meshFaces.length / 3))).events
          ++ [Event.generatePatches]
          ++ (globalStage inp.conf.settings inp.patches inp.globalLeveledPatches).1
          ++ localStage inp.conf.settings
          ++ [Event.generateAtlases, Event.buildModel, Event.saveModel]
        outcome := Outcome.success
        graph := (viewSelectionStage inp (Graph.init (inp.meshFaces.length / 3))).graph
        patchesAfterGlobal :=
          (globalStage inp.conf.settings inp.patches inp.globalLeveledPatches).2 } := by
  simp [runPipeline, h]

/-- Unfolding of a run whose view-selection phase exits fatally. -/
lemma runPipeline_fail (inp : PipelineInput)
    (h : (viewSelectionStage inp (Graph.init (inp.meshFaces.length / 3))).ok = false) :
    runPipeline inp =
      { trace := [Event.buildAdjacencyGraph (inp.meshFaces.length / 3)]
          ++ (viewSelectionStage inp (Graph.init (inp.meshFaces.length / 3))).events
        outcome := Outcome.exitFailure
        graph := (viewSelectionStage inp (Graph.init (inp.meshFaces.length / 3))).graph
        patchesAfterGlobal := [] } := by
  simp [runPipeline, h]

/-- The run succeeds exactly when the view-selection phase completes. -/
lemma runPipeline_outcome_iff (inp : PipelineInput) :
    (runPipeline inp).outcome = Outcome.success ↔
      (viewSelectionStage inp (Graph.init (inp.meshFaces.length / 3))).ok = true := by
  by_cases h : (viewSelectionStage inp (Graph.init (inp.meshFaces.length / 3))).ok = true
  · simp [runPipeline_ok inp h, h]
  · have h' := Bool.not_eq_true _ |>.mp h
    simp [runPipeline_fail inp h', h']

/-- Every event the disabled-global-leveling branch emits is an
`adjustColors` event. -/
lemma adjustEventsAux_shape :
    ∀ (ps : List TexturePatch) (s : Nat) (e : Event), e ∈ adjustEventsAux s ps →
      ∃ i a, e = Event.adjustColors i a
  | [], _, _, h => absurd h (by simp [adjustEventsAux])
  | p :: ps, s, e, h => by
    rcases (by simpa [adjustEventsAux] using h) with h' | h'
    · exact ⟨s, zeroAdjust p, h'⟩
    · exact adjustEventsAux_shape ps (s + 1) e h'

/-- The disabled-global-leveling branch emits, for every patch index, an
`adjustColors` event carrying the all-zero adjustment vector. -/
lemma adjustEventsAux_mem :
    ∀ (ps : List TexturePatch) (s i : Nat) (h : i < ps.length),
      Event.adjustColors (s + i) (zeroAdjust (ps.get ⟨i, h⟩)) ∈ adjustEventsAux s ps
  | [], _, i, h => absurd h (by simp)
  | p :: ps, s, 0, _ => by simp [adjustEventsAux]
  | p :: ps, s, i + 1, h => by
    have ih := adjustEventsAux_mem ps (s + 1) i (Nat.lt_of_succ_lt_succ h)
    have harith : s + (i + 1) = (s + 1) + i := by omega
    simp only [adjustEventsAux, List.mem_cons, List.get_cons_succ]
    exact Or.inr (harith ▸ ih)

/-- Every event of the global-seam-leveling stage has stage number 4. -/
lemma globalStage_events_stage (s : Settings) (ps gl : List TexturePatch) :
    ∀ e ∈ (globalStage s ps gl).1, stageOf e = 4 := by
  intro e he
  unfold globalStage at he
  split_ifs at he
  · simp at he
    simp [he, stageOf]
  · rcases adjustEventsAux_shape ps 0 e he with ⟨i, a, rfl⟩
    rfl

/-- Every event of the global-seam-leveling stage is a global-stage event. -/
lemma globalStage_events_global (s : Settings) (ps gl : List TexturePatch) :
    ∀ e ∈ (globalStage s ps gl).1, isGlobalStageEvent e := by
  intro e he
  unfold globalStage at he
  split_ifs at he
  · simp at he
    simp [he, isGlobalStageEvent]
  · rcases adjustEventsAux_shape ps 0 e he with ⟨i, a, rfl⟩
    trivial

/-- Every event of the local-seam-leveling stage has stage number 4. -/
lemma localStage_events_stage (s : Settings) :
    ∀ e ∈ localStage s, stageOf e = 4 := by
  intro e he
  unfold localStage at he
  split_ifs at he <;> simp at he
  simp [he, stageOf]

/-- Reading any entry of a replicated list under its own default gives the
replicated value. -/
lemma getD_replicate_self {α : Type} (a : α) :
    ∀ (n i : Nat), (List.replicate n a).getD i a = a
  | 0, _ => by simp
  | n + 1, 0 => by simp
  | n + 1, i + 1 => by simp [List.replicate, getD_replicate_self a n i]

/-- Every entry of the all-zero adjustment vector reads as the zero color. -/
lemma adjGet_zeroAdjust (p : TexturePatch) (i : Nat) :
    adjGet (zeroAdjust p) i = vec3zero := by
  simp [adjGet, zeroAdjust, getD_replicate_self vec3zero (p.get_faces.length * 3) i]

/-- Scaling the zero color gives the zero color. -/
lemma vec3smul_zero (q : ℚ) : vec3smul q vec3zero = vec3zero := by
  simp [vec3smul, vec3zero]

/-- Adding the zero color changes nothing. -/
lemma vec3add_zero (a : Vec3) : vec3add a vec3zero = a := by
  simp [vec3add, vec3zero]

/-- Adjusting a patch with the all-zero adjustment vector keeps every pixel
color and computes the validity mask from pixel coverage. -/
lemma adjust_colors_zero (p : TexturePatch) :
    (p.adjust_colors (zeroAdjust p)).pixels.map Pixel.color = p.pixels.map Pixel.color
    ∧ (p.adjust_colors (zeroAdjust p)).validity_mask = some (p.pixels.map Pixel.covered)
    ∧ (p.adjust_colors (zeroAdjust p)).faces = p.faces := by
  refine ⟨?_, rfl, rfl⟩
  simp [TexturePatch.adjust_colors, adjGet_zeroAdjust, vec3smul_zero, vec3add_zero]

/-- Gluing lemma: two stage-ordered event lists concatenate to a
stage-ordered list when a bound separates them. -/
lemma pairwise_stage_glue {A B : List Event} (k : Nat)
    (hA : A.Pairwise stageLE) (hB : B.Pairwise stageLE)
    (hAk : ∀ e ∈ A, stageOf e ≤ k) (hBk : ∀ e ∈ B, k ≤ stageOf e) :
    (A ++ B).Pairwise stageLE :=
  List.pairwise_append.mpr
    ⟨hA, hB, fun a ha b hb => Nat.le_trans (hAk a ha) (hBk b hb)⟩

/-- A list of events all in one stage is stage-ordered. -/
lemma pairwise_stage_const (c : Nat) :
    ∀ (l : List Event), (∀ e ∈ l, stageOf e = c) → l.Pairwise stageLE
  | [], _ => List.Pairwise.nil
  | e :: l, h => by
    refine List.Pairwise.cons (fun b hb => ?_) (pairwise_stage_const c l ?_)
    · have h1 := h e (by simp)
      have h2 := h b (by simp [hb])
      simp [stageLE, h1, h2]
    · exact fun b hb => h b (by simp [hb])

/-- Positional separation: if property `P` holds nowhere in `B` and property
`Q` holds nowhere in `A`, then in `A ++ B` every `P`-position precedes every
`Q`-position. -/
lemma mem_split_lt {α : Type} {A B : List α} {P Q : α → Prop}
    (hPB : ∀ x ∈ B, ¬ P x) (hQA : ∀ x ∈ A, ¬ Q x) :
    ∀ (i j : Nat) (hi : i < (A ++ B).length) (hj : j < (A ++ B).length),
      P ((A ++ B).get ⟨i, hi⟩) → Q ((A ++ B).get ⟨j, hj⟩) → i < j := by
  intro i j hi hj hP hQ
  have hiA : i < A.length := by
    by_contra hge
    push_neg at hge
    have hmem : (A ++ B).get ⟨i, hi⟩ ∈ B := by
      rw [List.get_eq_getElem, List.getElem_append_right hge]
      exact List.getElem_mem _
    exact hPB _ hmem hP
  have hjA : A.length ≤ j := by
    by_contra hlt
    push_neg at hlt
    have hmem : (A ++ B).get ⟨j, hj⟩ ∈ A := by
      rw [List.get_eq_getElem, List.getElem_append_left hlt]
      exact List.getElem_mem _
    exact hQA _ hmem hQ
  omega

/-- The MRF stage writes one label per node and keeps the node count. -/
lemma view_selection_num_nodes (g : Graph) (mrf : List Nat) :
    (view_selection g mrf).num_nodes = g.num_nodes := by
  simp [view_selection, Graph.num_nodes]

/-- A fresh graph has as many nodes as requested. -/
lemma init_num_nodes (n : Nat) : (Graph.init n).num_nodes = n := by
  simp [Graph.init, Graph.num_nodes]

/-- The view-selection phase keeps the node count. -/
lemma vss_graph_num_nodes (inp : PipelineInput) (g : Graph) :
    (viewSelectionStage inp g).graph.num_nodes = g.num_nodes := by
  unfold viewSelectionStage
  split_ifs <;>
    simp [view_selection, Graph.num_nodes, transferLabeling_length]

/-- An event whose stage number differs from a list's common stage number is
not in the list. -/
lemma stage_not_mem {e : Event} {l : List Event} (c : Nat)
    (hl : ∀ x ∈ l, stageOf x = c) (he : stageOf e ≠ c) : e ∉ l :=
  fun hm => he (hl e hm)

/-- Positional separation along any decomposition of a list. -/
lemma mem_split_lt_of_eq {α : Type} {L A B : List α} {P Q : α → Prop}
    (hL : L = A ++ B)
    (hPB : ∀ x ∈ B, ¬ P x) (hQA : ∀ x ∈ A, ¬ Q x) :
    ∀ (i j : Nat) (hi : i < L.length) (hj : j < L.length),
      P (L.get ⟨i, hi⟩) → Q (L.get ⟨j, hj⟩) → i < j := by
  subst hL
  exact mem_split_lt hPB hQA

/-- The local-seam-leveling event is emitted exactly when its flag is set. -/
lemma local_mem_localStage (s : Settings) :
    Event.localSeamLeveling ∈ localStage s ↔ s.local_seam_leveling = true := by
  unfold localStage
  split_ifs with h <;> simp [h]

/-- Every event of the local-seam-leveling stage is the local-leveling
event. -/
lemma localStage_events_eq (s : Settings) :
    ∀ e ∈ localStage s, e = Event.localSeamLeveling := by
  unfold localStage
  split_ifs <;> simp

/-- View-selection-phase events all live in stages 1–2. -/
lemma vss_events_stage_le (inp : PipelineInput) (g : Graph) :
    ∀ e ∈ (viewSelectionStage inp g).events, stageOf e ≤ 2 := by
  rcases vss_events_cases inp g with h | h | h | h <;> rw [h] <;> decide

/-- View-selection-phase events are stage-ordered. -/
lemma vss_events_pairwise (inp : PipelineInput) (g : Graph) :
    (viewSelectionStage inp g).events.Pairwise stageLE := by
  rcases vss_events_cases inp g with h | h | h | h <;> rw [h] <;>
    simp [List.pairwise_cons, stageLE, stageOf]

end Lemmas

section Claims

/-- C2: for every loaded labeling file whose element count differs from the
graph's `numNodes()`, the program aborts with a diagnostic before any
texture patch is generated. -/
theorem labeling_length_mismatch_aborts (inp : PipelineInput)
    (hf : inp.conf.labeling_file ≠ "")
    (hlen : inp.labelingFileContents.length ≠ inp.meshFaces.length / 3) :
    (runPipeline inp).outcome = Outcome.exitFailure
    ∧ Event.generatePatches ∉ (runPipeline inp).trace := by
  have hlen' : inp.labelingFileContents.length
      ≠ (Graph.init (inp.meshFaces.length / 3)).num_nodes := by
    simpa [init_num_nodes] using hlen
  have hvss := vss_file_mismatch inp (Graph.init (inp.meshFaces.length / 3)) hf hlen'
  have hok : (viewSelectionStage inp (Graph.init (inp.meshFaces.length / 3))).ok = false := by
    rw [hvss]
  rw [runPipeline_fail inp hok]
  simp [hvss]

/-- Witness for C2: a one-face mesh with a two-label file aborts without
generating patches. -/
theorem labeling_length_mismatch_aborts_witness :
    (runPipeline wrongLengthInput).outcome = Outcome.exitFailure
    ∧ Event.generatePatches ∉ (runPipeline wrongLengthInput).trace :=
  labeling_length_mismatch_aborts wrongLengthInput (by decide) (by decide)

/-- C3: for every loaded labeling file containing at least one label
strictly greater than `numViews()`, the program aborts with a diagnostic
before any texture patch is generated. -/
theorem labeling_out_of_range_aborts (inp : PipelineInput)
    (hf : inp.conf.labeling_file ≠ "")
    (hbad : ∃ l ∈ inp.labelingFileContents, inp.numViews < l) :
    (runPipeline inp).outcome = Outcome.exitFailure
    ∧ Event.generatePatches ∉ (runPipeline inp).trace := by
  by_cases hlen : inp.labelingFileContents.length = inp.meshFaces.length / 3
  · have hlen' : inp.labelingFileContents.length
        = (Graph.init (inp.meshFaces.length / 3)).num_nodes := by
      simpa [init_num_nodes] using hlen
    have hvss := vss_file_match inp (Graph.init (inp.meshFaces.length / 3)) hf hlen'
    have hnot : ¬ ∀ l ∈ inp.labelingFileContents, l ≤ inp.numViews := by
      rcases hbad with ⟨l, hl, hlt⟩
      exact fun hall => absurd (hall l hl) (Nat.not_le_of_lt hlt)
    have htr : (transferLabeling inp.numViews (Graph.init (inp.meshFaces.length / 3)) 0
        inp.labelingFileContents).2 = false := by
      rcases Bool.eq_false_or_eq_true (transferLabeling inp.numViews
          (Graph.init (inp.meshFaces.length / 3)) 0 inp.labelingFileContents).2 with h | h
      · exact absurd ((transferLabeling_ok_iff inp.numViews inp.labelingFileContents
          (Graph.init (inp.meshFaces.length / 3)) 0).mp h) hnot
      · exact h
    have hok : (viewSelectionStage inp (Graph.init (inp.meshFaces.length / 3))).ok = false := by
      rw [hvss]
      exact htr
    rw [runPipeline_fail inp hok]
    simp [hvss]
  · have hlen' : inp.labelingFileContents.length
        ≠ (Graph.init (inp.meshFaces.length / 3)).num_nodes := by
      simpa [init_num_nodes] using hlen
    have hvss := vss_file_mismatch inp (Graph.init (inp.meshFaces.length / 3)) hf hlen'
    have hok : (viewSelectionStage inp (Graph.init (inp.meshFaces.length / 3))).ok = false := by
      rw [hvss]
    rw [runPipeline_fail inp hok]
    simp [hvss]

/-- Witness for C3: a labeling file containing label 3 with two views
aborts without generating patches. -/
theorem labeling_out_of_range_aborts_witness :
    (runPipeline outOfRangeInput).outcome = Outcome.exitFailure
    ∧ Event.generatePatches ∉ (runPipeline outOfRangeInput).trace :=
  labeling_out_of_range_aborts outOfRangeInput (by decide) ⟨3, by decide, by decide⟩

/-- C8: for every run where loading a persisted data-cost file fails, the
program exits with a non-zero status and performs no further pipeline
stages. -/
theorem data_cost_load_failure_fatal (inp : PipelineInput)
    (h1 : inp.conf.labeling_file = "")
    (h2 : inp.conf.data_cost_file ≠ "")
    (h3 : inp.dataCostLoadOk = false) :
    (runPipeline inp).outcome = Outcome.exitFailure
    ∧ (runPipeline inp).trace
        = [Event.buildAdjacencyGraph (inp.meshFaces.length / 3), Event.loadDataCosts]
    ∧ Event.viewSelection ∉ (runPipeline inp).trace
    ∧ Event.generatePatches ∉ (runPipeline inp).trace
    ∧ (runPipeline inp).patchesAfterGlobal = [] := by
  have hvss := vss_load_fail inp (Graph.init (inp.meshFaces.length / 3)) h1 h2 h3
  have hok : (viewSelectionStage inp (Graph.init (inp.meshFaces.length / 3))).ok = false := by
    rw [hvss]
  rw [runPipeline_fail inp hok]
  simp [hvss]

/-- Witness for C8: a run with a data-cost file that fails to load aborts
right after the load attempt. -/
theorem data_cost_load_failure_fatal_witness :
    (runPipeline dataCostFailInput).outcome = Outcome.exitFailure
    ∧ (runPipeline dataCostFailInput).trace
        = [Event.buildAdjacencyGraph 1, Event.loadDataCosts]
    ∧ Event.viewSelection ∉ (runPipeline dataCostFailInput).trace
    ∧ Event.generatePatches ∉ (runPipeline dataCostFailInput).trace
    ∧ (runPipeline dataCostFailInput).patchesAfterGlobal = [] :=
  data_cost_load_failure_fatal dataCostFailInput rfl (by decide) rfl

/-- C9: for any loaded mesh, the adjacency graph is constructed with exactly
`mesh->get_faces().size() / 3` nodes, and the final graph still has that
node count. -/
theorem adjacency_graph_node_count (inp : PipelineInput) :
    (runPipeline inp).graph.num_nodes = inp.meshFaces.length / 3
    ∧ Event.buildAdjacencyGraph (inp.meshFaces.length / 3) ∈ (runPipeline inp).trace := by
  by_cases hok : (viewSelectionStage inp (Graph.init (inp.meshFaces.length / 3))).ok = true
  · rw [runPipeline_ok inp hok]
    refine ⟨?_, by simp⟩
    simp [vss_graph_num_nodes, init_num_nodes]
  · have hok' := Bool.not_eq_true _ |>.mp hok
    rw [runPipeline_fail inp hok']
    refine ⟨?_, by simp⟩
    simp [vss_graph_num_nodes, init_num_nodes]

/-- Counterexample for C1: with two views, the file label 2 is neither the
invalid marker nor within `[0, numViews)`, yet the driver accepts it — the
run succeeds and patches are generated. -/
theorem external_label_validation_counterexample :
    2 ∈ boundaryLabelInput.labelingFileContents
    ∧ ¬ specAcceptableLabel boundaryLabelInput.numViews 2
    ∧ (runPipeline boundaryLabelInput).outcome = Outcome.success
    ∧ Event.generatePatches ∈ (runPipeline boundaryLabelInput).trace := by
  refine ⟨by decide, ?_, by decide, by decide⟩
  simp [specAcceptableLabel, invalidLabel, boundaryLabelInput]

/-- C1 (amended): the selector accepts an external labeling of the right
length exactly when every label is at most `numViews` (the check is
`label > texture_views.size()`); a labeling with a label strictly greater
than `numViews` is fatal and no patch is generated. -/
theorem external_label_validation_amended (inp : PipelineInput)
    (hf : inp.conf.labeling_file ≠ "")
    (hlen : inp.labelingFileContents.length = inp.meshFaces.length / 3) :
    ((runPipeline inp).outcome = Outcome.success
      ↔ ∀ l ∈ inp.labelingFileContents, l ≤ inp.numViews)
    ∧ (¬ (∀ l ∈ inp.labelingFileContents, l ≤ inp.numViews) →
        (runPipeline inp).outcome = Outcome.exitFailure
        ∧ Event.generatePatches ∉ (runPipeline inp).trace) := by
  have hlen' : inp.labelingFileContents.length
      = (Graph.init (inp.meshFaces.length / 3)).num_nodes := by
    simpa [init_num_nodes] using hlen
  have hvss := vss_file_match inp (Graph.init (inp.meshFaces.length / 3)) hf hlen'
  have hiff := transferLabeling_ok_iff inp.numViews inp.labelingFileContents
    (Graph.init (inp.meshFaces.length / 3)) 0
  constructor
  · rw [runPipeline_outcome_iff, hvss]
    exact hiff
  · intro hnot
    have htr : (transferLabeling inp.numViews (Graph.init (inp.meshFaces.length / 3)) 0
        inp.labelingFileContents).2 = false := by
      rcases Bool.eq_false_or_eq_true (transferLabeling inp.numViews
          (Graph.init (inp.meshFaces.length / 3)) 0 inp.labelingFileContents).2 with h | h
      · exact absurd (hiff.mp h) hnot
      · exact h
    have hok : (viewSelectionStage inp (Graph.init (inp.meshFaces.length / 3))).ok = false := by
      rw [hvss]
      exact htr
    rw [runPipeline_fail inp hok]
    simp [hvss]

/-- Witness for the amended C1: a valid labeling `[1]` with two views is
accepted, and the out-of-range labeling `[3]` is rejected. -/
theorem external_label_validation_amended_witness :
    (runPipeline validLabelingInput).outcome = Outcome.success
    ∧ (runPipeline outOfRangeInput).outcome = Outcome.exitFailure := by
  constructor
  · exact (external_label_validation_amended validLabelingInput
      (by decide) (by decide)).1.mpr (by decide)
  · exact ((external_label_validation_amended outOfRangeInput
      (by decide) (by decide)).2 (by decide)).1

/-- C4: when an external labeling file is supplied, neither data-cost
computation nor the MRF optimization is executed (no data costs are loaded
either), and on success the graph's labels are exactly the file contents. -/
theorem external_labeling_bypass (inp : PipelineInput)
    (hf : inp.conf.labeling_file ≠ "") :
    Event.calculateDataCosts ∉ (runPipeline inp).trace
    ∧ Event.loadDataCosts ∉ (runPipeline inp).trace
    ∧ Event.viewSelection ∉ (runPipeline inp).trace
    ∧ ((runPipeline inp).outcome = Outcome.success →
        (runPipeline inp).graph.labels = inp.labelingFileContents) := by
  by_cases hlen : inp.labelingFileContents.length = inp.meshFaces.length / 3
  · have hlen' : inp.labelingFileContents.length
        = (Graph.init (inp.meshFaces.length / 3)).num_nodes := by
      simpa [init_num_nodes] using hlen
    have hvss := vss_file_match inp (Graph.init (inp.meshFaces.length / 3)) hf hlen'
    rcases Bool.eq_false_or_eq_true (transferLabeling inp.numViews
        (Graph.init (inp.meshFaces.length / 3)) 0 inp.labelingFileContents).2 with htr | htr
    · have hok : (viewSelectionStage inp (Graph.init (inp.meshFaces.length / 3))).ok = true := by
        rw [hvss]
        exact htr
      have hCalc : Event.calculateDataCosts
          ∉ (globalStage inp.conf.settings inp.patches inp.globalLeveledPatches).1 :=
        stage_not_mem 4 (globalStage_events_stage _ _ _) (by decide)
      have hLoad : Event.loadDataCosts
          ∉ (globalStage inp.conf.settings inp.patches inp.globalLeveledPatches).1 :=
        stage_not_mem 4 (globalStage_events_stage _ _ _) (by decide)
      have hVS : Event.viewSelection
          ∉ (globalStage inp.conf.settings inp.patches inp.globalLeveledPatches).1 :=
        stage_not_mem 4 (globalStage_events_stage _ _ _) (by decide)
      have hCalcL : Event.calculateDataCosts ∉ localStage inp.conf.settings :=
        stage_not_mem 4 (localStage_events_stage _) (by decide)
      have hLoadL : Event.loadDataCosts ∉ localStage inp.conf.settings :=
        stage_not_mem 4 (localStage_events_stage _) (by decide)
      have hVSL : Event.viewSelection ∉ localStage inp.conf.settings :=
        stage_not_mem 4 (localStage_events_stage _) (by decide)
      have hlabels : (transferLabeling inp.numViews (Graph.init (inp.meshFaces.length / 3)) 0
          inp.labelingFileContents).1.labels = inp.labelingFileContents := by
        have hlen'' : (Graph.init (inp.meshFaces.length / 3)).labels.length
            = 0 + inp.labelingFileContents.length := by
          simp [Graph.init, hlen]
        simpa using transferLabeling_ok_labels inp.numViews inp.labelingFileContents
          (Graph.init (inp.meshFaces.length / 3)) 0 hlen'' htr
      rw [runPipeline_ok inp hok]
      simp [hvss, hCalc, hLoad, hVS, hCalcL, hLoadL, hVSL, hlabels]
    · have hok : (viewSelectionStage inp (Graph.init (inp.meshFaces.length / 3))).ok = false := by
        rw [hvss]
        exact htr
      rw [runPipeline_fail inp hok]
      simp [hvss]
  · have hlen' : inp.labelingFileContents.length
        ≠ (Graph.init (inp.meshFaces.length / 3)).num_nodes := by
      simpa [init_num_nodes] using hlen
    have hvss := vss_file_mismatch inp (Graph.init (inp.meshFaces.length / 3)) hf hlen'
    have hok : (viewSelectionStage inp (Graph.init (inp.meshFaces.length / 3))).ok = false := by
      rw [hvss]
    rw [runPipeline_fail inp hok]
    simp [hvss]

/-- Witness for C4: with a valid external labeling `[1]` the run succeeds,
skips data costs and MRF optimization, and the graph holds the file's
labels. -/
theorem external_labeling_bypass_witness :
    Event.calculateDataCosts ∉ (runPipeline validLabelingInput).trace
    ∧ Event.loadDataCosts ∉ (runPipeline validLabelingInput).trace
    ∧ Event.viewSelection ∉ (runPipeline validLabelingInput).trace
    ∧ (runPipeline validLabelingInput).graph.labels = [1] := by
  have h := external_labeling_bypass validLabelingInput (by decide)
  exact ⟨h.1, h.2.1, h.2.2.1, h.2.2.2 (by decide)⟩

/-- C10: label transfer is not atomic with respect to range validation — the
length check precedes any write, but when the first offending label sits at
index `k`, the labels at indices `0..k-1` are already stored in the graph at
the moment the process exits, while the remaining nodes still hold the
initial unlabeled value. -/
theorem label_transfer_not_atomic (inp : PipelineInput)
    (hf : inp.conf.labeling_file ≠ "") :
    (inp.labelingFileContents.length ≠ inp.meshFaces.length / 3 →
      (runPipeline inp).graph = Graph.init (inp.meshFaces.length / 3))
    ∧ (∀ k : Nat,
        inp.labelingFileContents.length = inp.meshFaces.length / 3 →
        k < inp.labelingFileContents.length →
        (∀ j, j < k → inp.labelingFileContents.getD j 0 ≤ inp.numViews) →
        inp.numViews < inp.labelingFileContents.getD k 0 →
        (runPipeline inp).outcome = Outcome.exitFailure
        ∧ (runPipeline inp).graph.labels
            = inp.labelingFileContents.take k
              ++ List.replicate (inp.meshFaces.length / 3 - k) invalidLabel) := by
  constructor
  · intro hlen
    have hlen' : inp.labelingFileContents.length
        ≠ (Graph.init (inp.meshFaces.length / 3)).num_nodes := by
      simpa [init_num_nodes] using hlen
    have hvss := vss_file_mismatch inp (Graph.init (inp.meshFaces.length / 3)) hf hlen'
    have hok : (viewSelectionStage inp (Graph.init (inp.meshFaces.length / 3))).ok = false := by
      rw [hvss]
    rw [runPipeline_fail inp hok]
    simp [hvss]
  · intro k hlen hk hsafe hbad
    have hlen' : inp.labelingFileContents.length
        = (Graph.init (inp.meshFaces.length / 3)).num_nodes := by
      simpa [init_num_nodes] using hlen
    have hvss := vss_file_match inp (Graph.init (inp.meshFaces.length / 3)) hf hlen'
    have hglen : (Graph.init (inp.meshFaces.length / 3)).labels.length
        = 0 + inp.labelingFileContents.length := by
      simp [Graph.init, hlen]
    have hfail := transferLabeling_fail inp.numViews inp.labelingFileContents
      (Graph.init (inp.meshFaces.length / 3)) 0 k hglen hk hsafe hbad
    have hok : (viewSelectionStage inp (Graph.init (inp.meshFaces.length / 3))).ok = false := by
      rw [hvss, hfail]
    rw [runPipeline_fail inp hok]
    refine ⟨rfl, ?_⟩
    rw [hvss]
    show (transferLabeling inp.numViews (Graph.init (inp.meshFaces.length / 3)) 0
      inp.labelingFileContents).1.labels = _
    rw [hfail]
    simp [Graph.init, List.drop_replicate]

/-- Witness for C10: with two views and file contents `[1, 0, 5]`, the run
exits at index 2 with labels 1 and 0 already written and the third node
still unlabeled. -/
theorem label_transfer_not_atomic_witness :
    (runPipeline partialTransferInput).outcome = Outcome.exitFailure
    ∧ (runPipeline partialTransferInput).graph.labels = [1, 0, 0] := by
  have h := (label_transfer_not_atomic partialTransferInput (by decide)).2 2
    (by decide) (by decide) (by decide) (by decide)
  exact ⟨h.1, by simpa using h.2⟩

/-- C5: when global seam leveling is disabled, the driver still runs the
adjustment step for every texture patch, with the all-zero per-face
adjustment vector of size `faces * 3`, computing the validity mask while
leaving the patch colors unchanged. -/
theorem disabled_global_leveling_zero_adjustment (inp : PipelineInput)
    (hg : inp.conf.settings.global_seam_leveling = false)
    (hs : (runPipeline inp).outcome = Outcome.success) :
    (runPipeline inp).patchesAfterGlobal
        = inp.patches.map (fun p => p.adjust_colors (zeroAdjust p))
    ∧ (∀ (i : Nat) (h : i < inp.patches.length),
        Event.adjustColors i (zeroAdjust (inp.patches.get ⟨i, h⟩))
          ∈ (runPipeline inp).trace)
    ∧ ∀ p ∈ inp.patches,
        (p.adjust_colors (zeroAdjust p)).pixels.map Pixel.color
            = p.pixels.map Pixel.color
        ∧ (p.adjust_colors (zeroAdjust p)).validity_mask
            = some (p.pixels.map Pixel.covered) := by
  have hok := (runPipeline_outcome_iff inp).mp hs
  rw [runPipeline_ok inp hok]
  refine ⟨?_, ?_, ?_⟩
  · simp [globalStage, hg]
  · intro i h
    have hmem := adjustEventsAux_mem inp.patches 0 i h
    simp only [Nat.zero_add] at hmem
    have hG : Event.adjustColors i (zeroAdjust (inp.patches.get ⟨i, h⟩))
        ∈ (globalStage inp.conf.settings inp.patches inp.globalLeveledPatches).1 := by
      simpa [globalStage, hg, adjustEvents] using hmem
    simp only [List.get_eq_getElem] at hG
    simp [List.mem_append, hG]
  · intro p _
    exact ⟨(adjust_colors_zero p).1, (adjust_colors_zero p).2.1⟩

/-- Witness for C5: with global leveling off, the sample patch comes out of
the adjustment step with its colors intact and its mask computed. -/
theorem disabled_global_leveling_zero_adjustment_witness :
    (runPipeline computeLabelingInput).patchesAfterGlobal
      = [samplePatch.adjust_colors (zeroAdjust samplePatch)] := by
  have h := disabled_global_leveling_zero_adjustment computeLabelingInput rfl (by decide)
  simpa using h.1

/-- C6: in every completing run, the local-seam-leveling step executes
exactly when its own enable flag is set — regardless of the global-leveling
flag — and every global-stage event precedes it in the trace. -/
theorem local_seam_leveling_gating (inp : PipelineInput)
    (hs : (runPipeline inp).outcome = Outcome.success) :
    (Event.localSeamLeveling ∈ (runPipeline inp).trace
      ↔ inp.conf.settings.local_seam_leveling = true)
    ∧ (∀ (i j : Nat) (hi : i < (runPipeline inp).trace.length)
        (hj : j < (runPipeline inp).trace.length),
        isGlobalStageEvent ((runPipeline inp).trace.get ⟨i, hi⟩) →
        (runPipeline inp).trace.get ⟨j, hj⟩ = Event.localSeamLeveling → i < j) := by
  have hok := (runPipeline_outcome_iff inp).mp hs
  have htrace : (runPipeline inp).trace
      = [Event.buildAdjacencyGraph (inp.meshFaces.length / 3)]
        ++ (viewSelectionStage inp (Graph.init (inp.meshFaces.length / 3))).events
        ++ [Event.generatePatches]
        ++ (globalStage inp.conf.settings inp.patches inp.globalLeveledPatches).1
        ++ localStage inp.conf.settings
        ++ [Event.generateAtlases, Event.buildModel, Event.saveModel] := by
    rw [runPipeline_ok inp hok]
  constructor
  · have hG : Event.localSeamLeveling
        ∉ (globalStage inp.conf.settings inp.patches inp.globalLeveledPatches).1 :=
      fun hm => globalStage_events_global inp.conf.settings inp.patches
        inp.globalLeveledPatches Event.localSeamLeveling hm
    rw [htrace]
    rcases vss_events_cases inp (Graph.init (inp.meshFaces.length / 3)) with hE | hE | hE | hE <;>
      rw [hE] <;> simp [List.mem_append, hG, local_mem_localStage]
  · have hsplit : (runPipeline inp).trace
        = ([Event.buildAdjacencyGraph (inp.meshFaces.length / 3)]
            ++ (viewSelectionStage inp (Graph.init (inp.meshFaces.length / 3))).events
            ++ [Event.generatePatches]
            ++ (globalStage inp.conf.settings inp.patches inp.globalLeveledPatches).1)
          ++ (localStage inp.conf.settings
            ++ [Event.generateAtlases, Event.buildModel, Event.saveModel]) := by
      rw [htrace]
      simp [List.append_assoc]
    refine mem_split_lt_of_eq (P := isGlobalStageEvent)
      (Q := fun x => x = Event.localSeamLeveling) hsplit ?_ ?_
    · intro x hx
      rcases List.mem_append.mp hx with h | h
      · have := localStage_events_eq inp.conf.settings x h
        subst this
        exact fun hc => hc
      · simp only [List.mem_cons, List.not_mem_nil, or_false] at h
        rcases h with rfl | rfl | rfl <;> exact fun hc => hc
    · intro x hx
      simp only [List.append_assoc, List.mem_append] at hx
      rcases hx with h | h | h | h
      · simp only [List.mem_cons, List.not_mem_nil, or_false] at h
        subst h
        intro hc
        cases hc
      · have hle := vss_events_stage_le inp (Graph.init (inp.meshFaces.length / 3)) x h
        intro hc
        subst hc
        simp [stageOf] at hle
      · simp only [List.mem_cons, List.not_mem_nil, or_false] at h
        subst h
        intro hc
        cases hc
      · have hglo := globalStage_events_global inp.conf.settings inp.patches
          inp.globalLeveledPatches x h
        intro hc
        subst hc
        exact hglo

/-- Witness for C6: the sample computing run has local leveling enabled and
its trace contains the local-seam-leveling event. -/
theorem local_seam_leveling_gating_witness :
    Event.localSeamLeveling ∈ (runPipeline computeLabelingInput).trace :=
  (local_seam_leveling_gating computeLabelingInput (by decide)).1.mpr rfl

/-- C7: pipeline stages execute in the spec's sequence — in every run, the
trace's stage numbers (graph construction 0, data costs 1, labeling 2,
patch generation 3, seam leveling 4, atlas packing 5, model building 6) are
monotone along the trace. -/
theorem pipeline_stage_order (inp : PipelineInput) :
    (runPipeline inp).trace.Pairwise stageLE := by
  by_cases hok : (viewSelectionStage inp (Graph.init (inp.meshFaces.length / 3))).ok = true
  · rw [runPipeline_ok inp hok]
    have hEv2 := vss_events_stage_le inp (Graph.init (inp.meshFaces.length / 3))
    have hEvP := vss_events_pairwise inp (Graph.init (inp.meshFaces.length / 3))
    have hG4 := globalStage_events_stage inp.conf.settings inp.patches inp.globalLeveledPatches
    have hLoc4 := localStage_events_stage inp.conf.settings
    have hP1 : ([Event.buildAdjacencyGraph (inp.meshFaces.length / 3)]
        ++ (viewSelectionStage inp (Graph.init (inp.meshFaces.length / 3))).events).Pairwise
          stageLE := by
      refine pairwise_stage_glue 0 (by simp) hEvP ?_ (fun e _ => Nat.zero_le _)
      intro e he
      simp only [List.mem_cons, List.not_mem_nil, or_false] at he
      subst he
      simp [stageOf]
    have hU1 : ∀ e ∈ [Event.buildAdjacencyGraph (inp.meshFaces.length / 3)]
        ++ (viewSelectionStage inp (Graph.init (inp.meshFaces.length / 3))).events,
        stageOf e ≤ 2 := by
      intro e he
      rcases List.mem_append.mp he with h | h
      · simp only [List.mem_cons, List.not_mem_nil, or_false] at h
        subst h
        simp [stageOf]
      · exact hEv2 e h
    have hP2 : (([Event.buildAdjacencyGraph (inp.meshFaces.length / 3)]
        ++ (viewSelectionStage inp (Graph.init (inp.meshFaces.length / 3))).events)
        ++ [Event.generatePatches]).Pairwise stageLE :=
      pairwise_stage_glue 3 hP1 (by simp)
        (fun e he => by have := hU1 e he; omega) (by decide)
    have hU2 : ∀ e ∈ ([Event.buildAdjacencyGraph (inp.meshFaces.length / 3)]
        ++ (viewSelectionStage inp (Graph.init (inp.meshFaces.length / 3))).events)
        ++ [Event.generatePatches], stageOf e ≤ 3 := by
      intro e he
      rcases List.mem_append.mp he with h | h
      · have := hU1 e h
        omega
      · simp only [List.mem_cons, List.not_mem_nil, or_false] at h
        subst h
        decide
    have hP3 : ((([Event.buildAdjacencyGraph (inp.meshFaces.length / 3)]
        ++ (viewSelectionStage inp (Graph.init (inp.meshFaces.length / 3))).events)
        ++ [Event.generatePatches])
        ++ (globalStage inp.conf.settings inp.patches inp.globalLeveledPatches).1).Pairwise
          stageLE :=
      pairwise_stage_glue 4 hP2 (pairwise_stage_const 4 _ hG4)
        (fun e he => by have := hU2 e he; omega)
        (fun e he => Nat.le_of_eq (hG4 e he).symm)
    have hU3 : ∀ e ∈ (([Event.buildAdjacencyGraph (inp.meshFaces.length / 3)]
        ++ (viewSelectionStage inp (Graph.init (inp.meshFaces.length / 3))).events)
        ++ [Event.generatePatches])
        ++ (globalStage inp.conf.settings inp.patches inp.globalLeveledPatches).1,
        stageOf e ≤ 4 := by
      intro e he
      rcases List.mem_append.mp he with h | h
      · have := hU2 e h
        omega
      · exact Nat.le_of_eq (hG4 e h)
    have hP4 : (((([Event.buildAdjacencyGraph (inp.meshFaces.length / 3)]
        ++ (viewSelectionStage inp (Graph.init (inp.meshFaces.length / 3))).events)
        ++ [Event.generatePatches])
        ++ (globalStage inp.conf.settings inp.patches inp.globalLeveledPatches).1)
        ++ localStage inp.conf.settings).Pairwise stageLE :=
      pairwise_stage_glue 4 hP3 (pairwise_stage_const 4 _ hLoc4)
        hU3 (fun e he => Nat.le_of_eq (hLoc4 e he).symm)
    have hU4 : ∀ e ∈ ((([Event.buildAdjacencyGraph (inp.meshFaces.length / 3)]
        ++ (viewSelectionStage inp (Graph.init (inp.meshFaces.length / 3))).events)
        ++ [Event.generatePatches])
        ++ (globalStage inp.conf.settings inp.patches inp.globalLeveledPatches).1)
        ++ localStage inp.conf.settings, stageOf e ≤ 4 := by
      intro e he
      rcases List.mem_append.mp he with h | h
      · exact hU3 e h
      · exact Nat.le_of_eq (hLoc4 e h)
    exact pairwise_stage_glue 4 hP4
      (by simp [List.pairwise_cons, stageLE, stageOf]) hU4 (by decide)
  · have hok' := Bool.not_eq_true _ |>.mp hok
    rw [runPipeline_fail inp hok']
    refine pairwise_stage_glue 0 (by simp)
      (vss_events_pairwise inp (Graph.init (inp.meshFaces.length / 3))) ?_
      (fun e _ => Nat.zero_le _)
    intro e he
    simp only [List.mem_cons, List.not_mem_nil, or_false] at he
    subst he
    simp [stageOf]

end Claims

end Texrecon
